import Mathlib

/-!
Shallow embedding of the smart-task-planner-api repository
(src/models.py and src/main.py): the pydantic data model (`Task`,
`TaskPlan`), its validation and serialization semantics, and the
request-handling flow of the FastAPI application (credential check,
LLM invocation, JSON parsing, schema validation, error translation,
health endpoint).
-/

namespace SmartTaskPlanner

/-- A JSON value as produced by Python `json.loads`: numbers keep the
int/float distinction that `json.loads` makes (a numeral without a
fractional or exponent part becomes a Python `int`, otherwise a
`float`); floats are modelled as rationals. Objects are ordered field
lists; a duplicated key is resolved by the later occurrence winning,
as in a Python dict built from JSON. -/
inductive JsonVal where
  | null : JsonVal
  | bool (b : Bool) : JsonVal
  | intNum (n : Int) : JsonVal
  | floatNum (q : Rat) : JsonVal
  | str (s : String) : JsonVal
  | arr (elems : List JsonVal) : JsonVal
  | obj (fields : List (String × JsonVal)) : JsonVal

/-- Key lookup in a JSON object, later occurrence of a duplicated key
winning (Python dict semantics). -/
def getKey : List (String × JsonVal) → String → Option JsonVal
  | [], _ => none
  | (k, v) :: rest, key =>
    match getKey rest key with
    | some w => some w
    | none => if k = key then some v else none

/-- Pydantic lax validation of a field declared `float`: accepts a JSON
int (coerced to float) or a JSON float; rejects other JSON types
(booleans are rejected for numeric fields in pydantic v2). -/
def validateFloat : JsonVal → Option Rat
  | .intNum n => some (n : Rat)
  | .floatNum q => some q
  | _ => none

/-- Pydantic lax validation of a field declared `int`: accepts a JSON
int, and a JSON float with zero fractional part (coerced to int). -/
def validateInt : JsonVal → Option Int
  | .intNum n => some n
  | .floatNum q => if q.den = 1 then some q.num else none
  | _ => none

/-- Pydantic validation of a field declared `str`: accepts exactly JSON
strings. -/
def validateStr : JsonVal → Option String
  | .str s => some s
  | _ => none

/-- Elementwise validation of a `List[int]` field body. -/
def validateInts : List JsonVal → Option (List Int)
  | [] => some []
  | x :: xs =>
    match validateInt x, validateInts xs with
    | some n, some ns => some (n :: ns)
    | _, _ => none

/-- The `Task` model of src/models.py: `task_id: int`, `name: str`,
`estimated_days: float` (declared with a description only, no numeric
bound), `suggested_deadline: str`, `dependencies: List[int]`. -/
structure Task where
  task_id : Int
  name : String
  estimated_days : Rat
  suggested_deadline : String
  dependencies : List Int
deriving DecidableEq, Repr

/-- The `TaskPlan` model of src/models.py: `goal_title: str`,
`total_estimated_days: float`, `tasks: List[Task]`. -/
structure TaskPlan where
  goal_title : String
  total_estimated_days : Rat
  tasks : List Task
deriving DecidableEq, Repr

/-- `Task.model_validate` on a parsed JSON value: the value must be an
object carrying every declared field with a value of the declared
type; unknown extra keys are ignored (pydantic default config). -/
def Task.model_validate (j : JsonVal) : Option Task :=
  match j with
  | .obj fs =>
    match getKey fs "task_id", getKey fs "name", getKey fs "estimated_days",
          getKey fs "suggested_deadline", getKey fs "dependencies" with
    | some jid, some jname, some jdays, some jdl, some jdeps =>
      match validateInt jid, validateStr jname, validateFloat jdays,
            validateStr jdl, jdeps with
      | some tid, some nm, some days, some dl, .arr deps =>
        match validateInts deps with
        | some ds => some ⟨tid, nm, days, dl, ds⟩
        | none => none
      | _, _, _, _, _ => none
    | _, _, _, _, _ => none
  | _ => none

/-- Elementwise validation of the `List[Task]` field body. -/
def validateTasks : List JsonVal → Option (List Task)
  | [] => some []
  | x :: xs =>
    match Task.model_validate x, validateTasks xs with
    | some t, some ts => some (t :: ts)
    | _, _ => none

/-- `TaskPlan.model_validate` on a parsed JSON value (the call made in
`generate_task_plan` of src/main.py after `json.loads`). -/
def TaskPlan.model_validate (j : JsonVal) : Option TaskPlan :=
  match j with
  | .obj fs =>
    match getKey fs "goal_title", getKey fs "total_estimated_days",
          getKey fs "tasks" with
    | some jtitle, some jtotal, some jtasks =>
      match validateStr jtitle, validateFloat jtotal, jtasks with
      | some title, some total, .arr ts =>
        match validateTasks ts with
        | some tasks => some ⟨title, total, tasks⟩
        | none => none
      | _, _, _ => none
    | _, _, _ => none
  | _ => none

/-- Serialization of a validated `Task` back to JSON (the shape FastAPI
emits for the response body): declared fields only, in declaration
order; ints as JSON ints, floats as JSON floats. -/
def Task.model_dump (t : Task) : JsonVal :=
  .obj [("task_id", .intNum t.task_id),
        ("name", .str t.name),
        ("estimated_days", .floatNum t.estimated_days),
        ("suggested_deadline", .str t.suggested_deadline),
        ("dependencies", .arr (t.dependencies.map .intNum))]

/-- Serialization of a validated `TaskPlan` back to JSON. -/
def TaskPlan.model_dump (p : TaskPlan) : JsonVal :=
  .obj [("goal_title", .str p.goal_title),
        ("total_estimated_days", .floatNum p.total_estimated_days),
        ("tasks", .arr (p.tasks.map Task.model_dump))]

/-- The process environment as seen by src/main.py: only the
`GEMINI_API_KEY` variable matters; `none` models an unset variable. -/
structure Env where
  GEMINI_API_KEY : Option String

/-- The Python truthiness test `if not GEMINI_API_KEY` in
`get_gemini_client`: true when the variable is unset or holds the
empty string. -/
def keyMissing (env : Env) : Bool :=
  match env.GEMINI_API_KEY with
  | none => true
  | some s => s.isEmpty

/-- An error raised to FastAPI, mirroring `fastapi.HTTPException`. -/
structure HTTPException where
  status_code : Nat
  detail : String
deriving DecidableEq, Repr

/-- The detail string of the missing-credential error raised by
`get_gemini_client`. -/
def configDetail : String :=
  "Server Error: GEMINI_API_KEY not configured. Check the .env file."

/-- The fixed generic message of the catch-all handler in
`generate_task_plan`, to which the exception type name is appended. -/
def genericMsg : String :=
  "Error generating plan: The AI failed to produce a valid structure or API failed. Details: "

/-- The error raised by the catch-all handler in `generate_task_plan`
for an exception whose type name is `tyName`. -/
def genericException (tyName : String) : HTTPException :=
  ⟨500, genericMsg ++ tyName⟩

/-- Observable side effects of a request, used to state that the
missing-credential failure happens before the client is built and
before any outbound call. -/
inductive Effect where
  | clientInit : Effect
  | networkCall : Effect
deriving DecidableEq, Repr

/-- The Gemini client handle built by `genai.Client(api_key=...)`. -/
structure Client where
  api_key : String
deriving DecidableEq, Repr

/-- `get_gemini_client` of src/main.py: reads `GEMINI_API_KEY`; if it
is falsy, raises the 500 configuration `HTTPException` (before any
client construction); otherwise constructs and returns the client.
The effect list records whether a client was constructed. -/
def get_gemini_client (env : Env) : Except HTTPException Client × List Effect :=
  match env.GEMINI_API_KEY with
  | none => (.error ⟨500, configDetail⟩, [])
  | some k =>
    if k.isEmpty then (.error ⟨500, configDetail⟩, [])
    else (.ok ⟨k⟩, [.clientInit])

/-- The text of an LLM response, classified by what `json.loads` does
with it: `json v` stands for a string that parses to the JSON value
`v`; `notJson raw` stands for a string on which `json.loads` raises
`JSONDecodeError`. -/
inductive LLMText where
  | json (v : JsonVal) : LLMText
  | notJson (raw : String) : LLMText

/-- `json.loads` applied to a response text. -/
def json_loads : LLMText → Option JsonVal
  | .json v => some v
  | .notJson _ => none

/-- Outcome of the outbound `client.models.generate_content` call:
either it returns a response with some text, or it raises an exception
(API or network error) whose type name is recorded. -/
inductive LLMOutcome where
  | success (text : LLMText) : LLMOutcome
  | failure (excTypeName : String) : LLMOutcome

/-- The single-quote character, written by code point to keep the
source free of quote literals. -/
def squote : String := String.singleton (Char.ofNat 39)

/-- The user prompt f-string of `generate_task_plan`: the goal text is
interpolated verbatim between single quotes, with no escaping. -/
def user_prompt (goal : String) : String :=
  "Break down this goal into actionable tasks: " ++ squote ++ goal ++ squote
    ++ ". The total timeline implied by the goal is the constraint for the total_estimated_days."

/-- `generate_task_plan` of src/main.py. The external model is an
oracle `llm` from the prompt contents to the call outcome. The
returned effect list records client construction and the outbound
call, in order. Failure translation follows the source: the missing
credential re-raises the configuration `HTTPException`; any exception
inside the try block (API failure, `json.loads` failure, pydantic
validation failure) is caught and re-raised as the generic 500 with
the exception type name appended. -/
def generate_task_plan (env : Env) (llm : String → LLMOutcome) (goal : String) :
    Except HTTPException TaskPlan × List Effect :=
  match get_gemini_client env with
  | (.error e, effs) => (.error e, effs)
  | (.ok _client, effs) =>
    match llm (user_prompt goal) with
    | .failure tyName => (.error (genericException tyName), effs ++ [.networkCall])
    | .success text =>
      match json_loads text with
      | none => (.error (genericException "JSONDecodeError"), effs ++ [.networkCall])
      | some v =>
        match TaskPlan.model_validate v with
        | none => (.error (genericException "ValidationError"), effs ++ [.networkCall])
        | some plan => (.ok plan, effs ++ [.networkCall])

/-- The request body model of `POST /api/v1/plan_goal`. -/
structure GoalInput where
  goal_text : String

/-- An HTTP response: status code and JSON body. -/
structure HttpResponse where
  status : Nat
  body : JsonVal

/-- `plan_goal_endpoint` of src/main.py: runs `generate_task_plan`; on
success FastAPI serializes the validated plan as the 200 body; a
raised `HTTPException` becomes a response with its status and a
one-field `detail` object body. -/
def plan_goal_endpoint (env : Env) (llm : String → LLMOutcome)
    (goal_input : GoalInput) : HttpResponse :=
  match (generate_task_plan env llm goal_input.goal_text).1 with
  | .error e => ⟨e.status_code, .obj [("detail", .str e.detail)]⟩
  | .ok plan => ⟨200, TaskPlan.model_dump plan⟩

/-- `read_root` of src/main.py, the health-check handler of `GET /`.
It reads nothing: the environment argument records that its value is
independent of the credential configuration. -/
def read_root (_env : Env) : HttpResponse :=
  ⟨200, .obj [("status", .str "ok"), ("service", .str "Smart Task Planner API")]⟩

theorem validateInts_map_intNum (xs : List Int) :
    validateInts (xs.map JsonVal.intNum) = some xs := by
  induction xs with
  | nil => rfl
  | cons x xs ih => simp [validateInts, validateInt, ih]

theorem task_roundtrip (t : Task) :
    Task.model_validate (Task.model_dump t) = some t := by
  simp [Task.model_validate, Task.model_dump, getKey, validateInt, validateStr,
    validateFloat, validateInts_map_intNum]

theorem validateTasks_map_dump (ts : List Task) :
    validateTasks (ts.map Task.model_dump) = some ts := by
  induction ts with
  | nil => rfl
  | cons t ts ih => simp [validateTasks, task_roundtrip, ih]

theorem plan_roundtrip (p : TaskPlan) :
    TaskPlan.model_validate (TaskPlan.model_dump p) = some p := by
  simp [TaskPlan.model_validate, TaskPlan.model_dump, getKey, validateStr,
    validateFloat, validateTasks_map_dump]

theorem get_gemini_client_ok (env : Env) (h : keyMissing env = false) :
    ∃ k, get_gemini_client env = (.ok ⟨k⟩, [Effect.clientInit]) := by
  cases henv : env.GEMINI_API_KEY with
  | none => simp [keyMissing, henv] at h
  | some k =>
    have hk : k.isEmpty = false := by simpa [keyMissing, henv] using h
    exact ⟨k, by simp [get_gemini_client, henv, hk]⟩

theorem generate_task_plan_of_missing (env : Env) (llm : String → LLMOutcome)
    (goal : String) (h : keyMissing env = true) :
    generate_task_plan env llm goal = (.error ⟨500, configDetail⟩, []) := by
  cases henv : env.GEMINI_API_KEY with
  | none => simp [generate_task_plan, get_gemini_client, henv]
  | some k =>
    have hk : k.isEmpty = true := by simpa [keyMissing, henv] using h
    simp [generate_task_plan, get_gemini_client, henv, hk]

theorem generate_task_plan_of_key (env : Env) (llm : String → LLMOutcome)
    (goal : String) (h : keyMissing env = false) :
    generate_task_plan env llm goal =
      ((match llm (user_prompt goal) with
        | .failure ty => .error (genericException ty)
        | .success text =>
          match json_loads text with
          | none => .error (genericException "JSONDecodeError")
          | some v =>
            match TaskPlan.model_validate v with
            | none => .error (genericException "ValidationError")
            | some plan => .ok plan),
       [Effect.clientInit, Effect.networkCall]) := by
  obtain ⟨k, hc⟩ := get_gemini_client_ok env h
  cases hl : llm (user_prompt goal) with
  | failure ty => simp [generate_task_plan, hc, hl]
  | success text =>
    cases ht : json_loads text with
    | none => simp [generate_task_plan, hc, hl, ht]
    | some v =>
      cases hv : TaskPlan.model_validate v with
      | none => simp [generate_task_plan, hc, hl, ht, hv]
      | some plan => simp [generate_task_plan, hc, hl, ht, hv]

theorem model_validate_none_of_missing (fs : List (String × JsonVal))
    (h : getKey fs "goal_title" = none ∨ getKey fs "total_estimated_days" = none ∨
         getKey fs "tasks" = none) :
    TaskPlan.model_validate (.obj fs) = none := by
  cases h1 : getKey fs "goal_title" <;> cases h2 : getKey fs "total_estimated_days" <;>
    cases h3 : getKey fs "tasks" <;>
      simp_all [TaskPlan.model_validate]

theorem getKey_append (a b : List (String × JsonVal)) (k : String) :
    getKey (a ++ b) k =
      (match getKey b k with
       | some v => some v
       | none => getKey a k) := by
  induction a with
  | nil => cases hb : getKey b k <;> simp [getKey, hb]
  | cons p a ih =>
    cases p with
    | mk k1 v =>
      cases hb : getKey b k with
      | none => simp [getKey, List.cons_append, ih, hb]
      | some w => simp [getKey, List.cons_append, ih, hb]

theorem getKey_none_of_not_mem (xs : List (String × JsonVal)) (k : String)
    (h : ∀ p ∈ xs, p.1 ≠ k) : getKey xs k = none := by
  induction xs with
  | nil => rfl
  | cons p xs ih =>
    have h1 : p.1 ≠ k := h p (List.mem_cons_self p xs)
    have h2 : getKey xs k = none := ih (fun q hq => h q (List.mem_cons_of_mem p hq))
    cases p with
    | mk k1 v => simp [getKey, h2]; simpa using h1

theorem getKey_append_extras (fs extras : List (String × JsonVal)) (k : String)
    (h : ∀ p ∈ extras, p.1 ≠ k) :
    getKey (fs ++ extras) k = getKey fs k := by
  rw [getKey_append, getKey_none_of_not_mem extras k h]

/-- C1: for a valid goal text, when the credential is configured and the LLM
call returns text that parses to JSON validating against the TaskPlan schema,
`POST /api/v1/plan_goal` returns 200 with the serialized plan, and the body
round-trips through the schema: re-validating the serialized body yields the
same plan, so reserializing yields equality on all required fields. -/
theorem C1_success_roundtrip (env : Env) (llm : String → LLMOutcome) (g : String)
    (v : JsonVal) (plan : TaskPlan)
    (hk : keyMissing env = false)
    (hl : llm (user_prompt g) = .success (.json v))
    (hv : TaskPlan.model_validate v = some plan) :
    plan_goal_endpoint env llm ⟨g⟩ = ⟨200, TaskPlan.model_dump plan⟩ ∧
      TaskPlan.model_validate (TaskPlan.model_dump plan) = some plan := by
  refine ⟨?_, plan_roundtrip plan⟩
  simp [plan_goal_endpoint, generate_task_plan_of_key env llm g hk, hl, json_loads, hv]

theorem C1_success_roundtrip_witness :
    keyMissing ⟨some "test-key"⟩ = false ∧
    (plan_goal_endpoint ⟨some "test-key"⟩
        (fun _ => .success (.json (.obj [("goal_title", .str "Launch Product"),
          ("total_estimated_days", .intNum 14),
          ("tasks", .arr [.obj [("task_id", .intNum 1), ("name", .str "Plan"),
            ("estimated_days", .intNum 2), ("suggested_deadline", .str "Day 2"),
            ("dependencies", .arr [])]])])))
        ⟨"Launch a product in 2 weeks"⟩ =
      ⟨200, TaskPlan.model_dump ⟨"Launch Product", 14, [⟨1, "Plan", 2, "Day 2", []⟩]⟩⟩ ∧
      TaskPlan.model_validate
          (TaskPlan.model_dump ⟨"Launch Product", 14, [⟨1, "Plan", 2, "Day 2", []⟩]⟩) =
        some ⟨"Launch Product", 14, [⟨1, "Plan", 2, "Day 2", []⟩]⟩) :=
  ⟨rfl, C1_success_roundtrip _ _ "Launch a product in 2 weeks" _ _ rfl rfl (by decide)⟩

/-- C2: when GEMINI_API_KEY is unset or empty, the handler fails with status
500 and the configuration detail message (which contains the word
configured), and the effect trace is empty: the failure happens before any
client construction or outbound network call. -/
theorem C2_missing_key (env : Env) (llm : String → LLMOutcome) (goal : String)
    (h : keyMissing env = true) :
    generate_task_plan env llm goal = (.error ⟨500, configDetail⟩, []) ∧
      configDetail =
        "Server Error: GEMINI_API_KEY not " ++ "configured" ++ ". Check the .env file." :=
  ⟨generate_task_plan_of_missing env llm goal h, rfl⟩

theorem C2_missing_key_witness :
    keyMissing ⟨none⟩ = true ∧
    (generate_task_plan ⟨none⟩ (fun _ => .failure "APIError") "write a book" =
        (.error ⟨500, configDetail⟩, []) ∧
      configDetail =
        "Server Error: GEMINI_API_KEY not " ++ "configured" ++ ". Check the .env file.") :=
  ⟨rfl, C2_missing_key ⟨none⟩ (fun _ => .failure "APIError") "write a book" rfl⟩

/-- C3 counterexample input: a task object whose estimated_days is the
negative JSON number -1.0 and whose other fields are valid. -/
def negTaskJson : JsonVal :=
  .obj [("task_id", .intNum 1), ("name", .str "Plan"),
        ("estimated_days", .floatNum (-1)), ("suggested_deadline", .str "Day 2"),
        ("dependencies", .arr [])]

/-- C3 (counterexample): the claim that validation rejects a negative
estimated_days is false: the concrete task object `negTaskJson`, whose
estimated_days is the negative JSON number -1.0, validates successfully. -/
theorem C3_negative_accepted :
    Task.model_validate negTaskJson = some ⟨1, "Plan", -1, "Day 2", []⟩ ∧
      (-1 : Rat) < 0 := by
  exact ⟨by decide, by norm_num⟩

/-- C3 (amended): schema validation enforces only the numeric type of
estimated_days, not the claimed lower bound: a task object whose
estimated_days is any negative number, the other fields being valid,
validates successfully with that negative value kept. -/
theorem C3_no_lower_bound (q : Rat) (i : Int) (nm dl : String) (deps : List Int)
    (_hq : q < 0) :
    Task.model_validate (.obj [("task_id", .intNum i), ("name", .str nm),
        ("estimated_days", .floatNum q), ("suggested_deadline", .str dl),
        ("dependencies", .arr (deps.map .intNum))]) =
      some ⟨i, nm, q, dl, deps⟩ := by
  simp [Task.model_validate, getKey, validateInt, validateStr, validateFloat,
    validateInts_map_intNum]

theorem C3_no_lower_bound_witness :
    (-(3 : Rat) / 2) < 0 ∧
    Task.model_validate (.obj [("task_id", .intNum 7), ("name", .str "Ship"),
        ("estimated_days", .floatNum (-(3 : Rat) / 2)), ("suggested_deadline", .str "Day 9"),
        ("dependencies", .arr (([2, 3] : List Int).map .intNum))]) =
      some ⟨7, "Ship", -(3 : Rat) / 2, "Day 9", [2, 3]⟩ :=
  ⟨by norm_num, C3_no_lower_bound (-(3 : Rat) / 2) 7 "Ship" "Day 9" [2, 3] (by norm_num)⟩

/-- C4: every failure of `generate_task_plan` carries HTTP status 500; the
missing-credential case carries exactly the explicit configuration message,
and every other failure carries the single generic message with the
underlying exception type name appended. -/
theorem C4_uniform_500 (env : Env) (llm : String → LLMOutcome) (goal : String)
    (e : HTTPException)
    (h : (generate_task_plan env llm goal).1 = .error e) :
    e.status_code = 500 ∧
      ((keyMissing env = true ∧ e.detail = configDetail) ∨
       (keyMissing env = false ∧ ∃ ty, e.detail = genericMsg ++ ty)) := by
  cases hk : keyMissing env with
  | true =>
    rw [generate_task_plan_of_missing env llm goal hk] at h
    simp at h
    subst h
    exact ⟨rfl, .inl ⟨rfl, rfl⟩⟩
  | false =>
    rw [generate_task_plan_of_key env llm goal hk] at h
    simp only at h
    cases hl : llm (user_prompt goal) with
    | failure ty =>
      rw [hl] at h
      simp [genericException] at h
      subst h
      exact ⟨rfl, .inr ⟨rfl, ty, rfl⟩⟩
    | success text =>
      rw [hl] at h
      cases text with
      | notJson raw =>
        simp [json_loads, genericException] at h
        subst h
        exact ⟨rfl, .inr ⟨rfl, "JSONDecodeError", rfl⟩⟩
      | json v =>
        cases hv : TaskPlan.model_validate v with
        | none =>
          simp [json_loads, hv, genericException] at h
          subst h
          exact ⟨rfl, .inr ⟨rfl, "ValidationError", rfl⟩⟩
        | some plan =>
          simp [json_loads, hv] at h

theorem C4_uniform_500_witness :
    (generate_task_plan ⟨none⟩ (fun _ => .failure "APIError") "plan a trip").1 =
      .error ⟨500, configDetail⟩ ∧
    ((500 : Nat) = 500 ∧
      ((keyMissing ⟨none⟩ = true ∧ configDetail = configDetail) ∨
       (keyMissing ⟨none⟩ = false ∧ ∃ ty, configDetail = genericMsg ++ ty))) :=
  ⟨rfl, C4_uniform_500 ⟨none⟩ (fun _ => .failure "APIError") "plan a trip"
    ⟨500, configDetail⟩ rfl⟩

/-- C5: when the LLM response text is not parseable as JSON, the endpoint
returns 500 with the generic detail naming JSONDecodeError; the decode
failure is caught, not propagated. -/
theorem C5_non_json (env : Env) (llm : String → LLMOutcome) (g : String) (raw : String)
    (hk : keyMissing env = false)
    (hl : llm (user_prompt g) = .success (.notJson raw)) :
    plan_goal_endpoint env llm ⟨g⟩ =
      ⟨500, .obj [("detail", .str (genericMsg ++ "JSONDecodeError"))]⟩ := by
  simp [plan_goal_endpoint, generate_task_plan_of_key env llm g hk, hl, json_loads,
    genericException]

theorem C5_non_json_witness :
    keyMissing ⟨some "test-key"⟩ = false ∧
    (fun _ => LLMOutcome.success (.notJson "this is not a JSON document"))
        (user_prompt "write a book") = .success (.notJson "this is not a JSON document") ∧
    plan_goal_endpoint ⟨some "test-key"⟩
        (fun _ => .success (.notJson "this is not a JSON document")) ⟨"write a book"⟩ =
      ⟨500, .obj [("detail", .str (genericMsg ++ "JSONDecodeError"))]⟩ :=
  ⟨rfl, rfl, C5_non_json ⟨some "test-key"⟩
    (fun _ => .success (.notJson "this is not a JSON document")) "write a book"
    "this is not a JSON document" rfl rfl⟩

/-- C6: when the LLM response parses as JSON but the object lacks a required
TaskPlan field (goal_title, total_estimated_days or tasks), the endpoint
returns 500 with the generic detail naming ValidationError. -/
theorem C6_missing_field (env : Env) (llm : String → LLMOutcome) (g : String)
    (fs : List (String × JsonVal))
    (hk : keyMissing env = false)
    (hl : llm (user_prompt g) = .success (.json (.obj fs)))
    (hmiss : getKey fs "goal_title" = none ∨ getKey fs "total_estimated_days" = none ∨
             getKey fs "tasks" = none) :
    plan_goal_endpoint env llm ⟨g⟩ =
      ⟨500, .obj [("detail", .str (genericMsg ++ "ValidationError"))]⟩ := by
  simp [plan_goal_endpoint, generate_task_plan_of_key env llm g hk, hl, json_loads,
    model_validate_none_of_missing fs hmiss, genericException]

theorem C6_missing_field_witness :
    keyMissing ⟨some "test-key"⟩ = false ∧
    getKey [("goal_title", JsonVal.str "Launch Product"),
            ("total_estimated_days", JsonVal.intNum 14)] "tasks" = none ∧
    plan_goal_endpoint ⟨some "test-key"⟩
        (fun _ => .success (.json (.obj [("goal_title", .str "Launch Product"),
          ("total_estimated_days", .intNum 14)]))) ⟨"launch"⟩ =
      ⟨500, .obj [("detail", .str (genericMsg ++ "ValidationError"))]⟩ :=
  ⟨rfl, rfl, C6_missing_field ⟨some "test-key"⟩
    (fun _ => .success (.json (.obj [("goal_title", .str "Launch Product"),
      ("total_estimated_days", .intNum 14)]))) "launch"
    [("goal_title", .str "Launch Product"), ("total_estimated_days", .intNum 14)]
    rfl rfl (.inr (.inr rfl))⟩

/-- C7: `GET /` returns 200 with exactly the fixed status payload, for every
state of the environment. -/
theorem C7_health_fixed (env : Env) :
    read_root env =
      ⟨200, .obj [("status", .str "ok"), ("service", .str "Smart Task Planner API")]⟩ :=
  rfl

/-- C8: a JSON object holding every required TaskPlan field with valid values
plus arbitrary additional unknown fields validates to the same plan as the
object without the extras; the endpoint returns 200 and the serialized
response body carries exactly the declared fields, so the extra fields are
absent from it. -/
theorem C8_extra_fields_ignored (env : Env) (llm : String → LLMOutcome) (g : String)
    (fs extras : List (String × JsonVal)) (plan : TaskPlan)
    (hk : keyMissing env = false)
    (hv : TaskPlan.model_validate (.obj fs) = some plan)
    (hdisj : ∀ p ∈ extras,
      p.1 ≠ "goal_title" ∧ p.1 ≠ "total_estimated_days" ∧ p.1 ≠ "tasks")
    (hl : llm (user_prompt g) = .success (.json (.obj (fs ++ extras)))) :
    TaskPlan.model_validate (.obj (fs ++ extras)) = some plan ∧
    plan_goal_endpoint env llm ⟨g⟩ = ⟨200, TaskPlan.model_dump plan⟩ ∧
    TaskPlan.model_dump plan =
      .obj [("goal_title", .str plan.goal_title),
            ("total_estimated_days", .floatNum plan.total_estimated_days),
            ("tasks", .arr (plan.tasks.map Task.model_dump))] := by
  have h1 : getKey (fs ++ extras) "goal_title" = getKey fs "goal_title" :=
    getKey_append_extras fs extras _ (fun p hp => (hdisj p hp).1)
  have h2 : getKey (fs ++ extras) "total_estimated_days" = getKey fs "total_estimated_days" :=
    getKey_append_extras fs extras _ (fun p hp => (hdisj p hp).2.1)
  have h3 : getKey (fs ++ extras) "tasks" = getKey fs "tasks" :=
    getKey_append_extras fs extras _ (fun p hp => (hdisj p hp).2.2)
  have hv2 : TaskPlan.model_validate (.obj (fs ++ extras)) = some plan := by
    rw [show TaskPlan.model_validate (.obj (fs ++ extras)) =
        TaskPlan.model_validate (.obj fs) by
      simp only [TaskPlan.model_validate, h1, h2, h3]]
    exact hv
  refine ⟨hv2, ?_, rfl⟩
  simp [plan_goal_endpoint, generate_task_plan_of_key env llm g hk, hl, json_loads, hv2]

theorem C8_extra_fields_ignored_witness :
    keyMissing ⟨some "test-key"⟩ = false ∧
    TaskPlan.model_validate (.obj [("goal_title", .str "Launch Product"),
        ("total_estimated_days", .intNum 14), ("tasks", .arr [])]) =
      some ⟨"Launch Product", 14, []⟩ ∧
    (TaskPlan.model_validate (.obj ([("goal_title", JsonVal.str "Launch Product"),
        ("total_estimated_days", JsonVal.intNum 14), ("tasks", JsonVal.arr [])] ++
        [("confidence", JsonVal.floatNum (9 / 10)), ("notes", JsonVal.str "llm extra")])) =
      some ⟨"Launch Product", 14, []⟩ ∧
    plan_goal_endpoint ⟨some "test-key"⟩
        (fun _ => .success (.json (.obj ([("goal_title", .str "Launch Product"),
          ("total_estimated_days", .intNum 14), ("tasks", .arr [])] ++
          [("confidence", .floatNum (9 / 10)), ("notes", .str "llm extra")]))))
        ⟨"launch"⟩ =
      ⟨200, TaskPlan.model_dump ⟨"Launch Product", 14, []⟩⟩ ∧
    TaskPlan.model_dump ⟨"Launch Product", 14, []⟩ =
      .obj [("goal_title", .str (TaskPlan.goal_title ⟨"Launch Product", 14, []⟩)),
            ("total_estimated_days",
              .floatNum (TaskPlan.total_estimated_days ⟨"Launch Product", 14, []⟩)),
            ("tasks", .arr ((TaskPlan.tasks ⟨"Launch Product", 14, []⟩).map Task.model_dump))]) :=
  ⟨rfl, by decide, C8_extra_fields_ignored ⟨some "test-key"⟩
    (fun _ => .success (.json (.obj ([("goal_title", .str "Launch Product"),
      ("total_estimated_days", .intNum 14), ("tasks", .arr [])] ++
      [("confidence", .floatNum (9 / 10)), ("notes", .str "llm extra")]))))
    "launch"
    [("goal_title", .str "Launch Product"), ("total_estimated_days", .intNum 14),
      ("tasks", .arr [])]
    [("confidence", .floatNum (9 / 10)), ("notes", .str "llm extra")]
    ⟨"Launch Product", 14, []⟩ rfl (by decide) (by decide) rfl⟩

/-- C9: validation of the float-declared fields is coercive rather than
strict: JSON integer values for estimated_days and total_estimated_days are
accepted and coerced to float values. -/
theorem C9_int_coercion (i : Int) (nm dl : String) (n : Int) (deps : List Int)
    (gt : String) (m : Int) :
    Task.model_validate (.obj [("task_id", .intNum i), ("name", .str nm),
        ("estimated_days", .intNum n), ("suggested_deadline", .str dl),
        ("dependencies", .arr (deps.map .intNum))]) =
      some ⟨i, nm, (n : Rat), dl, deps⟩ ∧
    TaskPlan.model_validate (.obj [("goal_title", .str gt),
        ("total_estimated_days", .intNum m), ("tasks", .arr [])]) =
      some ⟨gt, (m : Rat), []⟩ := by
  constructor
  · simp [Task.model_validate, getKey, validateInt, validateStr, validateFloat,
      validateInts_map_intNum]
  · simp [TaskPlan.model_validate, getKey, validateStr, validateFloat, validateTasks]

/-- C10: the user prompt sent to the LLM contains the goal string verbatim,
interpolated between single-quote characters, with no escaping or
sanitization of its characters. -/
theorem C10_verbatim_goal (g : String) :
    user_prompt g =
      "Break down this goal into actionable tasks: " ++ squote ++ g ++ squote ++
        ". The total timeline implied by the goal is the constraint for the total_estimated_days." ∧
    squote.toList = [Char.ofNat 39] :=
  ⟨rfl, rfl⟩


end SmartTaskPlanner
